import Mathlib

/-!
# Verification of the `mwait` kernel driver's two-thread monitoring engine

Shallow embedding of `src/mwait/include.hpp` and `src/mwait/main.cxx`: a
kernel driver that arms the MONITOR/MWAIT hardware watchpoint on a fixed
memory cell (`mw::TestVariable`), detects stores to it in a Monitor thread,
and drives a Worker thread that owns the cell, occasionally mutates it, and
shuts the Monitor down by writing a sentinel value into the cell.

Each thread's behaviour is embedded as the event trace it produces, driven
by the values the environment supplies (the values read from the monitored
cell at each Monitor sampling step; the unload-signal state and timestamp
counter value at each Worker iteration).  Machine integers are `Nat` with
explicit `% 2 ^ w` / masking where the code masks; NTSTATUS codes are `Nat`
values below `2 ^ 32` with success meaning the sign bit is clear.
-/

namespace mw

/-- `mw::MAGIC` (include.hpp line 21): the reserved sentinel value
`0xEEFFEEFFEEFFEEFF` whose write into the monitored cell terminates the
Monitor loop. -/
def MAGIC : Nat := 0xEEFFEEFFEEFFEEFF

/-- `mw::MONITOR_THREAD_CPU_AFFINITY` (include.hpp line 18): the affinity
mask passed to `KeSetSystemAffinityThread` by the Monitor thread. -/
def MONITOR_THREAD_CPU_AFFINITY : Nat := 1

/-- `mw::WORKER_THREAD_CPU_AFFINITY` (include.hpp line 19): the affinity
mask passed to `KeSetSystemAffinityThread` by the Worker thread. -/
def WORKER_THREAD_CPU_AFFINITY : Nat := 4

/-- `mw::Sleep.QuadPart = -( 1 * 100 * 1000 )` (include.hpp line 13): the
relative delay passed to `KeDelayExecutionThread` at main.cxx line 153, in
units of 100 nanoseconds, negative meaning a relative interval. -/
def SleepQuadPart : Int := -(1 * 100 * 1000)

/-- `mw::NoSleep.QuadPart = 0` (include.hpp line 14): the zero timeout used
for the non-blocking unload-signal check at main.cxx line 136. -/
def NoSleepQuadPart : Int := 0

/-- Initial value of the monitored cell `mw::TestVariable = 0llu`
(include.hpp line 16). -/
def TestVariable : Nat := 0

end mw

/-- Number of 100-nanosecond units in one millisecond. -/
def hundredNsPerMs : Int := 10000

/-- `NT_SUCCESS` for an NTSTATUS represented as an unsigned 32-bit value:
success iff the sign bit is clear, i.e. the value is below `2 ^ 31`. -/
def NT_SUCCESSb (s : Nat) : Bool := decide (s < 0x80000000)

/-- `STATUS_SUCCESS` (= 0). -/
def STATUS_SUCCESS : Nat := 0

/-- The events the two threads of the engine can perform, shared between the
Monitor and Worker embeddings so that cross-thread invariants (such as the
single-writer property of the monitored cell) are statable. -/
inductive Ev where
  /-- `_disable()` — constructor of `INTERRUPT_GUARD` (main.cxx lines 5-8). -/
  | disableInterrupts
  /-- `_enable()` — destructor of `INTERRUPT_GUARD` (main.cxx lines 10-13). -/
  | enableInterrupts
  /-- `_mm_monitor(Address, 0, 0)` (main.cxx lines 51-55). -/
  | armMonitor
  /-- `_mm_mwait(0, 0)` (main.cxx line 69). -/
  | mwait
  /-- The read `*reinterpret_cast<ULONG_PTR*>(Address)` of the monitored
  cell, returning `v` (main.cxx line 84). -/
  | readCell (v : Nat)
  /-- The detected-store diagnostic report (main.cxx lines 88-94). -/
  | report (prev curr : Nat)
  /-- The zero-timeout `KeWaitForSingleObject` on the unload event, with its
  observed outcome (main.cxx lines 135-137). -/
  | checkUnload (signaled : Bool)
  /-- A store of `v` to the monitored cell (main.cxx line 141 or 150). -/
  | writeCell (v : Nat)
  /-- `KeDelayExecutionThread(KernelMode, false, &mw::Sleep)` with relative
  delay `q` in 100 ns units (main.cxx line 153). -/
  | sleep (q : Int)
  /-- The Worker starts waiting for the Monitor thread's termination
  (main.cxx lines 156-167). -/
  | beginJoinMonitor
  deriving DecidableEq

/-- Is the event a read of the monitored cell? -/
def isReadCell : Ev → Bool
  | Ev.readCell _ => true
  | _ => false

/-- Is the event an arming of the hardware watch? -/
def isArm : Ev → Bool
  | Ev.armMonitor => true
  | _ => false

/-- Is the event a detected-store report? -/
def isReport : Ev → Bool
  | Ev.report _ _ => true
  | _ => false

/-- Is the event a store to the monitored cell? -/
def isWriteCell : Ev → Bool
  | Ev.writeCell _ => true
  | _ => false

/-- Is the event a timed sleep? -/
def isSleep : Ev → Bool
  | Ev.sleep _ => true
  | _ => false

/-- One iteration of the Monitor loop body (main.cxx lines 35-102), given
the previously sampled value `prev` (`Previous`) and the value `v` read from
the cell at line 84 (`MostRecentRead`).  The `INTERRUPT_GUARD` is
constructed at the top of the loop body (line 37) and destroyed when the
body's scope is left — also on `break` — so `disableInterrupts` opens and
`enableInterrupts` closes every iteration.  A report is emitted iff
`Previous != MostRecentRead` (lines 86-95). -/
def monitorIterEvents (prev v : Nat) : List Ev :=
  Ev.disableInterrupts :: Ev.armMonitor :: Ev.mwait :: Ev.readCell v ::
    ((if prev ≠ v then [Ev.report prev v] else []) ++ [Ev.enableInterrupts])

/-- The Monitor loop (main.cxx lines 35-102) driven by the sequence of
values the reads at line 84 return, threading `MostRecentRead`: after each
iteration the loop exits iff the sampled value equals `mw::MAGIC`
(lines 98-101), otherwise it repeats with the sample as new `prev`.  An
empty remaining sample list cuts the (otherwise infinite) loop. -/
def monitorRun : Nat → List Nat → List Ev
  | _, [] => []
  | prev, v :: rest =>
      monitorIterEvents prev v ++
        (if v = mw.MAGIC then [] else monitorRun v rest)

/-- The Monitor thread's loop with `MostRecentRead` initialized to `0`
(main.cxx line 24). -/
def monitorThreadRun (samples : List Nat) : List Ev :=
  monitorRun 0 samples

/-- The samples the Monitor loop actually consumes from an offered sample
sequence: everything up to and including the first sentinel sample. -/
def takenSamples : List Nat → List Nat
  | [] => []
  | v :: rest => v :: (if v = mw.MAGIC then [] else takenSamples rest)

/-- Number of consecutive sample pairs that differ, starting from a given
previous value: the number of detected-store events a sample sequence should
produce. -/
def diffCount : Nat → List Nat → Nat
  | _, [] => 0
  | prev, v :: rest => (if prev = v then 0 else 1) + diffCount v rest

/-- `KeSetSystemAffinityThread(mask)` semantics: afterwards the thread
executes only on processors whose bit is set in `mask`; `eligibleCore mask
core` states that bit `core` of the mask is set (bit `k` of `mask` is
`mask / 2 ^ k % 2`). -/
def eligibleCore (mask core : Nat) : Bool := mask / 2 ^ core % 2 == 1

/-- The `NT_ASSERT` condition at main.cxx line 33: the executing processor
number (`KeGetCurrentProcessorNumber()`) differs from
`mw::MONITOR_THREAD_CPU_AFFINITY`. -/
def monitorAssertCond (core : Nat) : Bool :=
  decide (core ≠ mw.MONITOR_THREAD_CPU_AFFINITY)

/-- The Worker's probabilistic-write condition `(TimeStamp & 0xff) == 0`
(main.cxx line 148). -/
def probWriteCond (t : Nat) : Bool := t &&& 0xff == 0

/-- The environment of one Worker loop iteration: the outcome of the
zero-timeout unload-signal check and the `__rdtsc()` value of that
iteration. -/
structure WorkerIterInput where
  unloadSignaled : Bool
  timestamp : Nat
  deriving DecidableEq

/-- One iteration of the Worker loop body (main.cxx lines 133-154): check
the unload event with zero timeout (lines 135-137); if signaled, store the
sentinel to the monitored cell and break (lines 139-143); otherwise store
the timestamp iff its low byte is zero (lines 146-151), then sleep for
`mw::Sleep` (line 153). -/
def workerIterEvents (i : WorkerIterInput) : List Ev :=
  if i.unloadSignaled then
    [Ev.checkUnload true, Ev.writeCell mw.MAGIC]
  else
    Ev.checkUnload false ::
      ((if probWriteCond i.timestamp then [Ev.writeCell i.timestamp] else []) ++
        [Ev.sleep mw.SleepQuadPart])

/-- The Worker loop (main.cxx lines 133-154) followed, once the loop breaks,
by the join of the Monitor thread (lines 156-178).  The loop breaks exactly
when an iteration observes the unload signal; an empty remaining input list
cuts the (otherwise infinite) loop. -/
def workerLoopRun : List WorkerIterInput → List Ev
  | [] => []
  | i :: rest =>
      workerIterEvents i ++
        (if i.unloadSignaled then [Ev.beginJoinMonitor] else workerLoopRun rest)

/-- The Worker body after `PsCreateSystemThread` for the Monitor returns
`threadStatus` (main.cxx lines 117-131): on failure the Worker logs and
returns before entering its loop; on success it runs the loop. -/
def workerRun (threadStatus : Nat) (inputs : List WorkerIterInput) : List Ev :=
  if NT_SUCCESSb threadStatus then workerLoopRun inputs else []

/-- The value of the monitored cell after a trace of events, starting from
`init`: each `writeCell` store replaces the value. -/
def cellAfter : Nat → List Ev → Nat
  | init, [] => init
  | _, Ev.writeCell v :: rest => cellAfter v rest
  | init, _ :: rest => cellAfter init rest

/-- The observable outcome of `DriverEntry` (main.cxx lines 231-326). -/
structure DriverEntryResult where
  returned : Nat
  deletedSymlink : Bool
  deletedDevice : Bool
  workerStarted : Bool
  deriving DecidableEq

/-- `DriverEntry` (main.cxx lines 231-326) as a function of the statuses the
host returns from `IoCreateDevice` (line 245), `IoCreateSymbolicLink`
(line 261) and `PsCreateSystemThread` (line 307).  If device creation fails
the status is returned with nothing to delete (lines 276-285, device null);
if symbolic-link creation fails only the device is deleted and that status
returned (`CreatedSymbolicLink` false skips the symlink delete); if thread
creation fails both the symbolic link and the device are deleted (lines
317-323) and the function falls through to `return STATUS_SUCCESS`
(line 325); on success the Worker is started and `STATUS_SUCCESS` is
returned. -/
def DriverEntry (devSt symSt thrSt : Nat) : DriverEntryResult :=
  if NT_SUCCESSb devSt then
    if NT_SUCCESSb symSt then
      if NT_SUCCESSb thrSt then
        ⟨STATUS_SUCCESS, false, false, true⟩
      else
        ⟨STATUS_SUCCESS, true, true, false⟩
    else
      ⟨symSt, false, true, false⟩
  else
    ⟨devSt, false, false, false⟩

/-- Does an event satisfying `p` occur at a point of the trace where
interrupts are disabled?  The Boolean state tracks whether interrupts are
currently disabled (initially the supplied value). -/
def occursWhileDisabled (p : Ev → Bool) : Bool → List Ev → Bool
  | _, [] => false
  | _, Ev.disableInterrupts :: rest => occursWhileDisabled p true rest
  | _, Ev.enableInterrupts :: rest => occursWhileDisabled p false rest
  | dis, e :: rest => (dis && p e) || occursWhileDisabled p dis rest

/-- Trace check: every store of the sentinel to the monitored cell is the
last cell access of the trace — nothing but the join of the Monitor thread
follows it. -/
def magicWriteLastOk : List Ev → Bool
  | [] => true
  | Ev.writeCell v :: rest =>
      if v = mw.MAGIC then decide (rest = [Ev.beginJoinMonitor])
      else magicWriteLastOk rest
  | _ :: rest => magicWriteLastOk rest

/-- Trace check: every store of the sentinel immediately follows an
unload-signal check that observed the signal.  The Boolean state records
whether the previous event was `checkUnload true`. -/
def magicAfterSignalOk : Bool → List Ev → Bool
  | _, [] => true
  | justSig, Ev.writeCell v :: rest =>
      (justSig || decide (v ≠ mw.MAGIC)) && magicAfterSignalOk false rest
  | _, Ev.checkUnload b :: rest => magicAfterSignalOk b rest
  | _, _ :: rest => magicAfterSignalOk false rest

/-- A store to the monitored cell is legitimate Worker traffic: either the
shutdown sentinel or a timestamp satisfying the probabilistic-write
condition.  Non-store events pass trivially. -/
def writeEvOk : Ev → Bool
  | Ev.writeCell v => decide (v = mw.MAGIC) || probWriteCond v
  | _ => true

/-- The probabilistic-write condition `(t & 0xff) == 0` holds iff the low
byte of `t` is zero, i.e. `t % 256 = 0`. -/
theorem probWriteCond_iff (t : Nat) : probWriteCond t = true ↔ t % 256 = 0 := by
  have h : t &&& 0xff = t % 256 := by
    have := Nat.and_pow_two_sub_one_eq_mod t 8
    norm_num at this
    simpa using this
  simp [probWriteCond, h]

/-- A timestamp passing the probabilistic-write condition is never the
sentinel: the sentinel's low byte is `0xff`, not zero. -/
theorem probWriteCond_ne_magic (t : Nat) (h : probWriteCond t = true) :
    t ≠ mw.MAGIC := by
  intro he
  rw [he] at h
  exact absurd h (by decide)

/-- C1: with device and symbolic-link creation succeeding and the Worker
thread creation failing with `STATUS_UNSUCCESSFUL` (0xC0000001),
`DriverEntry` deletes the symbolic link and the device but nevertheless
returns `STATUS_SUCCESS` — a success status — so the driver finishes
loading, contradicting the claim that it returns a non-success status. -/
theorem driverEntry_thread_failure_returns_success :
    NT_SUCCESSb 0xC0000001 = false ∧
    DriverEntry STATUS_SUCCESS STATUS_SUCCESS 0xC0000001 =
      ⟨STATUS_SUCCESS, true, true, false⟩ ∧
    NT_SUCCESSb (DriverEntry STATUS_SUCCESS STATUS_SUCCESS 0xC0000001).returned
      = true := by
  decide

/-- C2 counterexample: a concrete non-exiting Worker iteration sleeps with
the relative delay constant `mw::Sleep.QuadPart = -100000` hundred-ns units,
which is 10 milliseconds, not 100 milliseconds. -/
theorem worker_sleep_constant_not_100ms :
    workerIterEvents ⟨false, 1⟩ =
      [Ev.checkUnload false, Ev.sleep mw.SleepQuadPart] ∧
    -mw.SleepQuadPart = 10 * hundredNsPerMs ∧
    -mw.SleepQuadPart ≠ 100 * hundredNsPerMs := by
  decide

/-- C2 (amended): on every Worker iteration in which the unload signal is
not observed, the iteration ends with exactly one timed sleep whose relative
delay constant is `mw::Sleep.QuadPart`, equal to 10 milliseconds (100000
hundred-nanosecond units). -/
theorem worker_sleep_constant_10ms (i : WorkerIterInput)
    (h : i.unloadSignaled = false) :
    (∃ pre, workerIterEvents i = pre ++ [Ev.sleep mw.SleepQuadPart] ∧
      pre.filter isSleep = []) ∧
    -mw.SleepQuadPart = 10 * hundredNsPerMs := by
  refine ⟨?_, by decide⟩
  by_cases hp : probWriteCond i.timestamp
  · exact ⟨[Ev.checkUnload false, Ev.writeCell i.timestamp],
      by simp [workerIterEvents, h, hp], by simp [isSleep]⟩
  · exact ⟨[Ev.checkUnload false],
      by simp [workerIterEvents, h, hp], by simp [isSleep]⟩

/-- C2 witness: the amended statement instantiated at a concrete non-exiting
iteration. -/
theorem worker_sleep_constant_10ms_witness :
    (⟨false, 1⟩ : WorkerIterInput).unloadSignaled = false ∧
    ((∃ pre, workerIterEvents ⟨false, 1⟩ = pre ++ [Ev.sleep mw.SleepQuadPart] ∧
      pre.filter isSleep = []) ∧
    -mw.SleepQuadPart = 10 * hundredNsPerMs) :=
  ⟨rfl, worker_sleep_constant_10ms ⟨false, 1⟩ rfl⟩

/-- C9: a timestamp `t` below `2 ^ 64` that satisfies the Worker's
probabilistic-write condition `(t & 0xff) == 0` is never the sentinel value,
whose low-order byte is `0xff`: no probabilistic write can be mistaken for
the termination signal. -/
theorem sentinel_disjoint_from_prob_writes (t : Nat) (_h1 : t < 2 ^ 64)
    (h2 : probWriteCond t = true) :
    t ≠ mw.MAGIC ∧ mw.MAGIC % 256 = 0xff :=
  ⟨probWriteCond_ne_magic t h2, by decide⟩

/-- C9 witness: the statement instantiated at the concrete timestamp 256. -/
theorem sentinel_disjoint_from_prob_writes_witness :
    (256 : Nat) < 2 ^ 64 ∧ probWriteCond 256 = true ∧
    ((256 : Nat) ≠ mw.MAGIC ∧ mw.MAGIC % 256 = 0xff) :=
  ⟨by decide, by decide, sentinel_disjoint_from_prob_writes 256 (by decide) (by decide)⟩

/-- C10: if `PsCreateSystemThread` for the Monitor fails, the Worker
produces no events at all — in particular no store to the monitored cell —
and the cell keeps its initial value 0. -/
theorem worker_no_write_on_create_failure (st : Nat)
    (inputs : List WorkerIterInput) (h : NT_SUCCESSb st = false) :
    workerRun st inputs = [] ∧
    (workerRun st inputs).countP isWriteCell = 0 ∧
    cellAfter mw.TestVariable (workerRun st inputs) = 0 := by
  simp [workerRun, h, cellAfter, mw.TestVariable]

/-- C10 witness: the statement instantiated at a concrete failing status and
a nonempty input list. -/
theorem worker_no_write_on_create_failure_witness :
    NT_SUCCESSb 0xC0000001 = false ∧
    (workerRun 0xC0000001 [⟨true, 0⟩] = [] ∧
      (workerRun 0xC0000001 [⟨true, 0⟩]).countP isWriteCell = 0 ∧
      cellAfter mw.TestVariable (workerRun 0xC0000001 [⟨true, 0⟩]) = 0) :=
  ⟨by decide, worker_no_write_on_create_failure 0xC0000001 [⟨true, 0⟩] (by decide)⟩

/-- C6 counterexample: the assertion condition at main.cxx line 33 compares
the executing core against `mw::MONITOR_THREAD_CPU_AFFINITY` (= 1), not
against the Worker's target core: core 2 — the very core the Worker's
affinity mask 4 selects — satisfies the assertion condition, so the
assertion does not verify that the executing core differs from the Worker's
target core. -/
theorem monitor_assert_passes_on_worker_core :
    eligibleCore mw.WORKER_THREAD_CPU_AFFINITY 2 = true ∧
    monitorAssertCond 2 = true := by
  decide

/-- C6 (amended): the assertion compares the executing core number against
the Monitor's own affinity mask constant; whenever the pinning took effect —
the Monitor executes on a core eligible under mask 1, necessarily core 0 —
the assertion condition holds, and the executing core then also differs from
every core the Worker's affinity mask 4 makes eligible (core 2). -/
theorem monitor_assert_valid_when_pinned (core wcore : Nat)
    (h1 : eligibleCore mw.MONITOR_THREAD_CPU_AFFINITY core = true)
    (h2 : eligibleCore mw.WORKER_THREAD_CPU_AFFINITY wcore = true) :
    monitorAssertCond core = true ∧ core ≠ wcore := by
  have hc : core = 0 := by
    rcases core with _ | c
    · rfl
    · exfalso
      have hpos : 0 < 2 ^ c := pow_pos (by norm_num) c
      have hge : 2 ≤ 2 ^ (c + 1) := by
        rw [pow_succ]
        omega
      have hdiv : 1 / 2 ^ (c + 1) = 0 := Nat.div_eq_of_lt (by omega)
      simp [eligibleCore, mw.MONITOR_THREAD_CPU_AFFINITY, hdiv] at h1
  have hw : wcore = 2 := by
    rcases wcore with _ | _ | _ | w
    · exact absurd h2 (by decide)
    · exact absurd h2 (by decide)
    · rfl
    · exfalso
      have hpos : 0 < 2 ^ w := pow_pos (by norm_num) w
      have hge : 8 ≤ 2 ^ (w + 1 + 1 + 1) := by
        rw [pow_succ, pow_succ, pow_succ]
        omega
      have hdiv : 4 / 2 ^ (w + 1 + 1 + 1) = 0 := Nat.div_eq_of_lt (by omega)
      simp [eligibleCore, mw.WORKER_THREAD_CPU_AFFINITY, hdiv] at h2
  subst hc
  subst hw
  exact ⟨by decide, by decide⟩

/-- C6 witness: the amended statement instantiated at the cores the two
masks actually select. -/
theorem monitor_assert_valid_when_pinned_witness :
    eligibleCore mw.MONITOR_THREAD_CPU_AFFINITY 0 = true ∧
    eligibleCore mw.WORKER_THREAD_CPU_AFFINITY 2 = true ∧
    (monitorAssertCond 0 = true ∧ (0 : Nat) ≠ 2) :=
  ⟨by decide, by decide, monitor_assert_valid_when_pinned 0 2 (by decide) (by decide)⟩

/-- C7 counterexample: in the concrete Monitor iteration with previous value
0 and sampled value 1, the event following the wait is the sample — not the
interrupt release — and both the sample and the detected-store report occur
while interrupts are disabled: the suppression window is not released
immediately after the wait returns. -/
theorem monitor_samples_with_interrupts_disabled :
    monitorIterEvents 0 1 =
      [Ev.disableInterrupts, Ev.armMonitor, Ev.mwait, Ev.readCell 1,
        Ev.report 0 1, Ev.enableInterrupts] ∧
    occursWhileDisabled isReadCell false (monitorIterEvents 0 1) = true ∧
    occursWhileDisabled isReport false (monitorIterEvents 0 1) = true := by
  decide

/-- C7 (amended): in every Monitor iteration, interrupt suppression is
acquired as the first action — before arming — and released only as the last
action of the iteration: arming, the wait, the sample, and any report all
happen inside the suppressed window, which is opened and closed exactly once
per iteration. -/
theorem interrupt_guard_spans_iteration (prev v : Nat) :
    ∃ mid,
      monitorIterEvents prev v =
        Ev.disableInterrupts :: mid ++ [Ev.enableInterrupts] ∧
      Ev.disableInterrupts ∉ mid ∧ Ev.enableInterrupts ∉ mid ∧
      mid.head? = some Ev.armMonitor ∧ Ev.mwait ∈ mid ∧ Ev.readCell v ∈ mid := by
  by_cases h : prev = v
  · exact ⟨[Ev.armMonitor, Ev.mwait, Ev.readCell v],
      by simp [monitorIterEvents, h], by simp, by simp, rfl, by simp, by simp⟩
  · exact ⟨[Ev.armMonitor, Ev.mwait, Ev.readCell v, Ev.report prev v],
      by simp [monitorIterEvents, h], by simp, by simp, rfl, by simp, by simp⟩

/-- Every Monitor iteration performs exactly one sample of the cell. -/
theorem monitorIterEvents_countP_readCell (prev v : Nat) :
    (monitorIterEvents prev v).countP isReadCell = 1 := by
  by_cases h : prev = v <;>
    simp [monitorIterEvents, h, List.countP_cons, isReadCell]

/-- Every Monitor iteration arms the hardware watch exactly once. -/
theorem monitorIterEvents_countP_arm (prev v : Nat) :
    (monitorIterEvents prev v).countP isArm = 1 := by
  by_cases h : prev = v <;>
    simp [monitorIterEvents, h, List.countP_cons, isArm]

/-- A Monitor iteration emits exactly one report when the sampled value
changed and none when it did not. -/
theorem monitorIterEvents_countP_report (prev v : Nat) :
    (monitorIterEvents prev v).countP isReport = if prev = v then 0 else 1 := by
  by_cases h : prev = v <;>
    simp [monitorIterEvents, h, List.countP_cons, isReport]

/-- A Monitor iteration stores nothing to the monitored cell. -/
theorem monitorIterEvents_countP_writeCell (prev v : Nat) :
    (monitorIterEvents prev v).countP isWriteCell = 0 := by
  by_cases h : prev = v <;>
    simp [monitorIterEvents, h, List.countP_cons, isWriteCell]

/-- C3: when the samples the Monitor reads are anything followed by the
first sentinel sample, the produced trace is independent of whatever would
come after the sentinel — the loop exits on that iteration — and both the
number of samples taken and the number of armings equal the number of
iterations up to and including the sentinel one: no further arming or
sampling happens afterwards. -/
theorem monitor_stops_at_first_sentinel (prev : Nat) (pre rest : List Nat)
    (h : mw.MAGIC ∉ pre) :
    monitorRun prev (pre ++ mw.MAGIC :: rest) =
      monitorRun prev (pre ++ [mw.MAGIC]) ∧
    (monitorRun prev (pre ++ mw.MAGIC :: rest)).countP isReadCell =
      pre.length + 1 ∧
    (monitorRun prev (pre ++ mw.MAGIC :: rest)).countP isArm =
      pre.length + 1 := by
  induction pre generalizing prev with
  | nil =>
    refine ⟨by simp [monitorRun], ?_, ?_⟩ <;>
      simp [monitorRun, monitorIterEvents_countP_readCell,
        monitorIterEvents_countP_arm, List.countP_append]
  | cons q pre ih =>
    have hq : q ≠ mw.MAGIC := by
      intro hqe
      exact h (by simp [hqe])
    have hpre : mw.MAGIC ∉ pre := by
      intro hm
      exact h (by simp [hm])
    obtain ⟨e1, e2, e3⟩ := ih q hpre
    refine ⟨?_, ?_, ?_⟩
    · simp [monitorRun, hq, e1]
    · simp [monitorRun, hq, List.countP_append,
        monitorIterEvents_countP_readCell, e2]
      omega
    · simp [monitorRun, hq, List.countP_append,
        monitorIterEvents_countP_arm, e3]
      omega

/-- C3 witness: the statement instantiated at a concrete sample sequence
with one non-sentinel sample before the sentinel and two samples offered
after it. -/
theorem monitor_stops_at_first_sentinel_witness :
    mw.MAGIC ∉ ([1] : List Nat) ∧
    (monitorRun 0 ([1] ++ mw.MAGIC :: [5, 6]) =
        monitorRun 0 ([1] ++ [mw.MAGIC]) ∧
      (monitorRun 0 ([1] ++ mw.MAGIC :: [5, 6])).countP isReadCell =
        ([1] : List Nat).length + 1 ∧
      (monitorRun 0 ([1] ++ mw.MAGIC :: [5, 6])).countP isArm =
        ([1] : List Nat).length + 1) :=
  ⟨by decide, monitor_stops_at_first_sentinel 0 [1] [5, 6] (by decide)⟩

/-- The number of reports the Monitor loop emits equals the number of
consecutive differing pairs over the samples it consumes, threading the
previously sampled value. -/
theorem monitorRun_report_count (prev : Nat) (samples : List Nat) :
    (monitorRun prev samples).countP isReport =
      diffCount prev (takenSamples samples) := by
  induction samples generalizing prev with
  | nil => simp [monitorRun, takenSamples, diffCount]
  | cons v rest ih =>
    by_cases hv : v = mw.MAGIC
    · simp [monitorRun, takenSamples, diffCount, hv, List.countP_append,
        monitorIterEvents_countP_report]
    · simp [monitorRun, takenSamples, diffCount, hv, List.countP_append,
        monitorIterEvents_countP_report, ih]

/-- C4: each Monitor iteration emits exactly one detected-store report when
the previously sampled value differs from the newly sampled one and none
when they are equal; over the whole loop — with the previous value
initialized to zero — the number of reports equals the number of differing
consecutive sample pairs among the consumed samples. -/
theorem monitor_report_on_change :
    (∀ prev v, (monitorIterEvents prev v).countP isReport =
      if prev = v then 0 else 1) ∧
    (∀ samples, (monitorThreadRun samples).countP isReport =
      diffCount 0 (takenSamples samples)) :=
  ⟨monitorIterEvents_countP_report,
    fun samples => monitorRun_report_count 0 samples⟩

/-- C5: in every Worker execution, first, a sentinel store occurs only
immediately after an unload-signal check that observed the signal, and
second, a sentinel store is the last event on the monitored cell: the only
event following it is the Worker beginning to wait for the Monitor thread's
termination — in particular no probabilistic write follows it. -/
theorem worker_sentinel_write_protocol :
    (∀ inputs, magicAfterSignalOk false (workerLoopRun inputs) = true) ∧
    (∀ inputs, magicWriteLastOk (workerLoopRun inputs) = true) := by
  constructor
  · intro inputs
    induction inputs with
    | nil => rfl
    | cons i rest ih =>
      rcases i with ⟨sig, t⟩
      cases sig
      · by_cases hp : probWriteCond t
        · have hne : t ≠ mw.MAGIC := probWriteCond_ne_magic t hp
          simp [workerLoopRun, workerIterEvents, hp, magicAfterSignalOk,
            hne, ih]
        · simp [workerLoopRun, workerIterEvents, hp, magicAfterSignalOk, ih]
      · simp [workerLoopRun, workerIterEvents, magicAfterSignalOk]
  · intro inputs
    induction inputs with
    | nil => rfl
    | cons i rest ih =>
      rcases i with ⟨sig, t⟩
      cases sig
      · by_cases hp : probWriteCond t
        · have hne : t ≠ mw.MAGIC := probWriteCond_ne_magic t hp
          simp [workerLoopRun, workerIterEvents, hp, magicWriteLastOk,
            hne, ih]
        · simp [workerLoopRun, workerIterEvents, hp, magicWriteLastOk, ih]
      · simp [workerLoopRun, workerIterEvents, magicWriteLastOk]

/-- C8: the Monitor loop performs no store to the monitored cell in any
iteration, whatever values it samples; and every store the Worker loop
performs on the cell is either the shutdown sentinel or a timestamp
satisfying the probabilistic-write condition — the cell has a single
writer. -/
theorem monitored_cell_single_writer :
    (∀ prev samples, (monitorRun prev samples).countP isWriteCell = 0) ∧
    (∀ inputs, (workerLoopRun inputs).all writeEvOk = true) := by
  constructor
  · intro prev samples
    induction samples generalizing prev with
    | nil => rfl
    | cons v rest ih =>
      by_cases hv : v = mw.MAGIC <;>
        simp [monitorRun, hv, List.countP_append,
          monitorIterEvents_countP_writeCell, ih]
  · intro inputs
    induction inputs with
    | nil => rfl
    | cons i rest ih =>
      rcases i with ⟨sig, t⟩
      cases sig
      · by_cases hp : probWriteCond t <;>
          simp [workerLoopRun, workerIterEvents, hp, writeEvOk, ih]
      · simp [workerLoopRun, workerIterEvents, writeEvOk]
